import Mathlib

/-!
Shallow embedding of `pkg/sr/sr-adjacencysid.go` (gobmp): the Adjacency SID
TLV decoder (`UnmarshalAdjacencySIDTLV`), the JSON builder
(`BuildAdjacencySID`) and the per-protocol flags variants with their
`MarshalJSON` serializers.

Bytes are modelled as `Nat` (with `< 256` hypotheses where an octet bound
matters), byte slices as `List Nat`.  Go slice indexing and `make` with a
negative length are fallible: the binary decoder returns
`Except GoPanic AdjacencySIDTLV`, where `GoPanic` records the run-time
panics Go would raise.  JSON values held in `json.RawMessage` are modelled
by the inductive `JSON` (numbers restricted to integers, which covers every
claim), and the relevant behaviours of Go's `encoding/json` package are
embedded: booleans/uint8 decode from their literal forms, `null` leaves the
target untouched, and a `[]byte` target decodes from a base64
(StdEncoding) JSON string - not from a JSON array.
-/

deriving instance DecidableEq for Except

/-- JSON values as carried by `json.RawMessage`.  Numbers are restricted to
integers (every input in this development is integral).  Objects are
key-unique field lists, modelling Go's `map[string]json.RawMessage`. -/
inductive JSON where
  | null
  | bool (b : Bool)
  | num (n : Int)
  | str (s : String)
  | arr (xs : List JSON)
  | obj (fields : List (String × JSON))

/-- Look a key up in a JSON object's field list (Go map indexing `b[key]`,
with `ok` encoded as `Option`). -/
def jlookup (m : List (String × JSON)) (k : String) : Option JSON :=
  (m.find? (fun p => p.1 == k)).map (fun p => p.2)

/-- Errors produced by the embedded `encoding/json` operations
(`json.UnmarshalTypeError`: a value of the wrong shape for the target Go
type). -/
inductive JSONErr where
  | unmarshalTypeError (val : JSON) (goType : String)

/-- Run-time panics of the Go decoder: out-of-range slice indexing and
`make` with a negative length. -/
inductive GoPanic where
  | indexOutOfRange (idx len : Nat)
  | makesliceLenOutOfRange (n : Int)
deriving DecidableEq

/-- Modelled from the spec: `base.ProtoID` lives in `pkg/base`, which is not
among the provided sources.  The spec describes it as an enumerated constant
identifying ISIS-L1, ISIS-L2, OSPFv2 or OSPFv3, obtained from the BGP-LS
NLRI protocol-ID field; `Other` stands for any protocol tag outside those
four recognized values. -/
inductive ProtoID where
  | ISISL1
  | ISISL2
  | OSPFv2
  | OSPFv3
  | Other (n : Nat)
deriving DecidableEq

/-- ISIS Adjacency SID flags (`adjISISFlags`): `F B V L S P . .`
(MSB first, bits 1-0 reserved). -/
structure adjISISFlags where
  F : Bool
  B : Bool
  V : Bool
  L : Bool
  S : Bool
  P : Bool
deriving DecidableEq

/-- OSPFv2 Adjacency SID flags (`adjOSPFv2Flags`): `B V L G P . . .`
(MSB first, bits 2-0 reserved). -/
structure adjOSPFv2Flags where
  B : Bool
  V : Bool
  L : Bool
  G : Bool
  P : Bool
deriving DecidableEq

/-- OSPFv3 Adjacency SID flags (`adjOSPFv3Flags`), same layout as OSPFv2. -/
structure adjOSPFv3Flags where
  B : Bool
  V : Bool
  L : Bool
  G : Bool
  P : Bool
deriving DecidableEq

/-- The `AdjacencySIDFlags` interface, closed over the three concrete flag
types of the source file. -/
inductive AdjacencySIDFlags where
  | isis (f : adjISISFlags)
  | ospfv2 (f : adjOSPFv2Flags)
  | ospfv3 (f : adjOSPFv3Flags)
deriving DecidableEq

/-- The Adjacency SID TLV value object (`AdjacencySIDTLV`).  `Flags` is
`none` when the Go interface field is left nil. -/
structure AdjacencySIDTLV where
  Flags : Option AdjacencySIDFlags
  Weight : Nat
  SID : List Nat
deriving DecidableEq

/-- `UnmarshalAdjacencySIDISISFlags`: decode the ISIS flags octet
(`f.F = b&0x80 == 0x80`, ..., `f.P = b&0x4 == 0x4`). -/
def UnmarshalAdjacencySIDISISFlags (b : Nat) : AdjacencySIDFlags :=
  .isis
    { F := b &&& 0x80 == 0x80
      B := b &&& 0x40 == 0x40
      V := b &&& 0x20 == 0x20
      L := b &&& 0x10 == 0x10
      S := b &&& 0x8 == 0x8
      P := b &&& 0x4 == 0x4 }

/-- `UnmarshalAdjacencySIDOSPFFlags`: the function the OSPF branch of
`UnmarshalAdjacencySIDTLV` actually calls.  Its body constructs an
`adjISISFlags` record with the ISIS bit positions, byte for byte the same
code as `UnmarshalAdjacencySIDISISFlags`. -/
def UnmarshalAdjacencySIDOSPFFlags (b : Nat) : AdjacencySIDFlags :=
  .isis
    { F := b &&& 0x80 == 0x80
      B := b &&& 0x40 == 0x40
      V := b &&& 0x20 == 0x20
      L := b &&& 0x10 == 0x10
      S := b &&& 0x8 == 0x8
      P := b &&& 0x4 == 0x4 }

/-- `UnmarshalAdjacencySIDOSPFv2Flags`: the OSPFv2-specific decoder
(B bit 7, V bit 6, L bit 5, G bit 4, P bit 3).  Present in the source but
never called by `UnmarshalAdjacencySIDTLV`. -/
def UnmarshalAdjacencySIDOSPFv2Flags (b : Nat) : AdjacencySIDFlags :=
  .ospfv2
    { B := b &&& 0x80 == 0x80
      V := b &&& 0x40 == 0x40
      L := b &&& 0x20 == 0x20
      G := b &&& 0x10 == 0x10
      P := b &&& 0x8 == 0x8 }

/-- `UnmarshalAdjacencySIDOSPFv3Flags`: the OSPFv3-specific decoder, same
positions as OSPFv2.  Also never called by `UnmarshalAdjacencySIDTLV`. -/
def UnmarshalAdjacencySIDOSPFv3Flags (b : Nat) : AdjacencySIDFlags :=
  .ospfv3
    { B := b &&& 0x80 == 0x80
      V := b &&& 0x40 == 0x40
      L := b &&& 0x20 == 0x20
      G := b &&& 0x10 == 0x10
      P := b &&& 0x8 == 0x8 }

/-- The flags value `UnmarshalAdjacencySIDTLV`'s protocol switch assigns for
a given tag and flags octet; `none` for an unrecognized tag (the switch has
no default case, so `asid.Flags` stays nil). -/
def flagsForTag : ProtoID → Nat → Option AdjacencySIDFlags
  | .ISISL1, b0 => some (UnmarshalAdjacencySIDISISFlags b0)
  | .ISISL2, b0 => some (UnmarshalAdjacencySIDISISFlags b0)
  | .OSPFv2, b0 => some (UnmarshalAdjacencySIDOSPFFlags b0)
  | .OSPFv3, b0 => some (UnmarshalAdjacencySIDOSPFFlags b0)
  | .Other _, _ => none

/-- `UnmarshalAdjacencySIDTLV`: the binary decoder.  Control flow mirrors
the Go function: the protocol switch reads `b[0]` (only in a recognized
branch), then `b[1]` is read as the weight, then
`make([]byte, len(b)-4)` is performed - which panics when `len(b) < 4` -
and `copy(asid.SID, b[4:4+sl])` fills the SID with `b[4:]`.  There is no
length check and no error return besides the modelled panics. -/
def UnmarshalAdjacencySIDTLV (protoID : ProtoID) (b : List Nat) :
    Except GoPanic AdjacencySIDTLV :=
  match
    (match protoID, b.get? 0 with
     | .ISISL1, some b0 => .ok (some (UnmarshalAdjacencySIDISISFlags b0))
     | .ISISL2, some b0 => .ok (some (UnmarshalAdjacencySIDISISFlags b0))
     | .OSPFv2, some b0 => .ok (some (UnmarshalAdjacencySIDOSPFFlags b0))
     | .OSPFv3, some b0 => .ok (some (UnmarshalAdjacencySIDOSPFFlags b0))
     | .Other _, _ => .ok none
     | _, none => .error (.indexOutOfRange 0 b.length) :
      Except GoPanic (Option AdjacencySIDFlags)) with
  | .error e => .error e
  | .ok flagsVal =>
    match b.get? 1 with
    | none => .error (.indexOutOfRange 1 b.length)
    | some w =>
      if b.length < 4 then
        .error (.makesliceLenOutOfRange ((b.length : Int) - 4))
      else
        .ok { Flags := flagsVal, Weight := w, SID := b.drop 4 }

theorem unmarshalTLV_cons (protoID : ProtoID) (b0 b1 b2 b3 : Nat)
    (rest : List Nat) :
    UnmarshalAdjacencySIDTLV protoID (b0 :: b1 :: b2 :: b3 :: rest) =
      .ok { Flags := flagsForTag protoID b0, Weight := b1, SID := rest } := by
  have hlen : ¬ ((b0 :: b1 :: b2 :: b3 :: rest).length < 4) := by
    simp [List.length_cons]
  cases protoID <;>
    simp [UnmarshalAdjacencySIDTLV, flagsForTag, hlen, List.get?]

/-- Value of one character of a base64 (StdEncoding) alphabet, `none` for a
character outside the alphabet (including the padding character). -/
def base64Char (c : Char) : Option Nat :=
  if 'A' ≤ c ∧ c ≤ 'Z' then some (c.toNat - 65)
  else if 'a' ≤ c ∧ c ≤ 'z' then some (c.toNat - 97 + 26)
  else if '0' ≤ c ∧ c ≤ '9' then some (c.toNat - 48 + 52)
  else if c = '+' then some 62
  else if c = '/' then some 63
  else none

/-- Base64 StdEncoding decoding of a character stream already stripped of
newlines: quads of alphabet characters, with `=` padding allowed only in
the final quad (`xx==` for one byte, `xxx=` for two). -/
def base64DecodeQuads : List Char → Option (List Nat)
  | [] => some []
  | c1 :: c2 :: c3 :: c4 :: rest =>
    match base64Char c1, base64Char c2 with
    | some n1, some n2 =>
      if c3 = '=' then
        if c4 = '=' ∧ rest = [] then some [n1 * 4 + n2 / 16] else none
      else
        match base64Char c3 with
        | some n3 =>
          if c4 = '=' then
            if rest = [] then
              some [n1 * 4 + n2 / 16, (n2 % 16) * 16 + n3 / 4]
            else none
          else
            match base64Char c4 with
            | some n4 =>
              (base64DecodeQuads rest).map
                (fun bs =>
                  (n1 * 4 + n2 / 16) :: ((n2 % 16) * 16 + n3 / 4) ::
                    ((n3 % 4) * 64 + n4) :: bs)
            | none => none
        | none => none
    | _, _ => none
  | _ => none

/-- Go's `encoding/base64` StdEncoding decoder as used by `encoding/json`
for `[]byte` targets: carriage returns and newlines are skipped, the rest
must be correctly padded quads. -/
def base64DecodeGo (s : String) : Option (List Nat) :=
  base64DecodeQuads (s.data.filter (fun c => c != '\n' && c != '\r'))

/-- Go `json.Unmarshal` into a `bool` target: a JSON boolean sets the
target, JSON `null` leaves the previous value untouched, anything else is
an `UnmarshalTypeError`. -/
def unmarshalBool (old : Bool) : JSON → Except JSONErr Bool
  | .bool b => .ok b
  | .null => .ok old
  | v => .error (.unmarshalTypeError v "bool")

/-- Go `json.Unmarshal` into a `uint8` target: an integral JSON number in
0..255 sets the target, `null` is a no-op, anything else (including an
out-of-range number) is an `UnmarshalTypeError`. -/
def unmarshalUint8 (old : Nat) : JSON → Except JSONErr Nat
  | .num n =>
    if 0 ≤ n ∧ n ≤ 255 then .ok n.toNat
    else .error (.unmarshalTypeError (.num n) "uint8")
  | .null => .ok old
  | v => .error (.unmarshalTypeError v "uint8")

/-- Go `json.Unmarshal` into a `[]byte` target: a JSON string is decoded as
base64 (StdEncoding), `null` is a no-op; any other value - in particular a
JSON array - is an `UnmarshalTypeError`. -/
def unmarshalByteSlice (old : List Nat) : JSON → Except JSONErr (List Nat)
  | .str s =>
    match base64DecodeGo s with
    | some bs => .ok bs
    | none => .error (.unmarshalTypeError (.str s) "[]uint8")
  | .null => .ok old
  | v => .error (.unmarshalTypeError v "[]uint8")

/-- Go `json.Unmarshal` into a `map[string]json.RawMessage` target: a JSON
object yields its fields, `null` is a no-op, anything else is an
`UnmarshalTypeError`. -/
def unmarshalObj (old : List (String × JSON)) :
    JSON → Except JSONErr (List (String × JSON))
  | .obj fields => .ok fields
  | .null => .ok old
  | v => .error (.unmarshalTypeError v "map[string]json.RawMessage")

/-- One field statement of the flag builders: Go zero-initializes the field
to `false` and overwrites it via `json.Unmarshal` only when the key is
present in the map (`if v, ok := b[key]; ok { ... }`). -/
def goUnmarshalFlagField (b : List (String × JSON)) (k : String) :
    Except JSONErr Bool :=
  match jlookup b k with
  | some v => unmarshalBool false v
  | none => .ok false

/-- `buildAdjISISFlags`: build the ISIS flags record from a JSON field map,
field by field with early return on the first unmarshal error. -/
def buildAdjISISFlags (b : List (String × JSON)) :
    Except JSONErr adjISISFlags :=
  match goUnmarshalFlagField b "f_flag" with
  | .error e => .error e
  | .ok fF =>
  match goUnmarshalFlagField b "b_flag" with
  | .error e => .error e
  | .ok fB =>
  match goUnmarshalFlagField b "v_flag" with
  | .error e => .error e
  | .ok fV =>
  match goUnmarshalFlagField b "l_flag" with
  | .error e => .error e
  | .ok fL =>
  match goUnmarshalFlagField b "s_flag" with
  | .error e => .error e
  | .ok fS =>
  match goUnmarshalFlagField b "p_flag" with
  | .error e => .error e
  | .ok fP => .ok { F := fF, B := fB, V := fV, L := fL, S := fS, P := fP }

/-- `buildAdjOSPFv2Flags`: build the OSPFv2 flags record from a JSON field
map.  Note that the `G` field is read from key `"g_flag"`. -/
def buildAdjOSPFv2Flags (b : List (String × JSON)) :
    Except JSONErr adjOSPFv2Flags :=
  match goUnmarshalFlagField b "b_flag" with
  | .error e => .error e
  | .ok fB =>
  match goUnmarshalFlagField b "v_flag" with
  | .error e => .error e
  | .ok fV =>
  match goUnmarshalFlagField b "l_flag" with
  | .error e => .error e
  | .ok fL =>
  match goUnmarshalFlagField b "g_flag" with
  | .error e => .error e
  | .ok fG =>
  match goUnmarshalFlagField b "p_flag" with
  | .error e => .error e
  | .ok fP => .ok { B := fB, V := fV, L := fL, G := fG, P := fP }

/-- `buildAdjOSPFv3Flags`: identical to the OSPFv2 builder but producing the
OSPFv3 record. -/
def buildAdjOSPFv3Flags (b : List (String × JSON)) :
    Except JSONErr adjOSPFv3Flags :=
  match goUnmarshalFlagField b "b_flag" with
  | .error e => .error e
  | .ok fB =>
  match goUnmarshalFlagField b "v_flag" with
  | .error e => .error e
  | .ok fV =>
  match goUnmarshalFlagField b "l_flag" with
  | .error e => .error e
  | .ok fL =>
  match goUnmarshalFlagField b "g_flag" with
  | .error e => .error e
  | .ok fG =>
  match goUnmarshalFlagField b "p_flag" with
  | .error e => .error e
  | .ok fP => .ok { B := fB, V := fV, L := fL, G := fG, P := fP }

/-- The `flags` block of `BuildAdjacencySID`: if the key is present, the raw
value is unmarshalled into a field map and the protocol switch selects the
variant builder; an unrecognized tag leaves `asid.Flags` nil (the switch
has no default case), and an absent key also leaves it nil. -/
def buildFlagsStep (protoID : ProtoID) (b : List (String × JSON)) :
    Except JSONErr (Option AdjacencySIDFlags) :=
  match jlookup b "flags" with
  | some v =>
    match unmarshalObj [] v with
    | .error e => .error e
    | .ok fo =>
      match protoID with
      | .ISISL1 =>
        match buildAdjISISFlags fo with
        | .error e => .error e
        | .ok f => .ok (some (.isis f))
      | .ISISL2 =>
        match buildAdjISISFlags fo with
        | .error e => .error e
        | .ok f => .ok (some (.isis f))
      | .OSPFv2 =>
        match buildAdjOSPFv2Flags fo with
        | .error e => .error e
        | .ok f => .ok (some (.ospfv2 f))
      | .OSPFv3 =>
        match buildAdjOSPFv3Flags fo with
        | .error e => .error e
        | .ok f => .ok (some (.ospfv3 f))
      | .Other _ => .ok none
  | none => .ok none

/-- The `weight` block of `BuildAdjacencySID` (zero value 0 when absent). -/
def buildWeightStep (b : List (String × JSON)) : Except JSONErr Nat :=
  match jlookup b "weight" with
  | some v => unmarshalUint8 0 v
  | none => .ok 0

/-- The `sid` block of `BuildAdjacencySID` (zero value nil when absent). -/
def buildSIDStep (b : List (String × JSON)) : Except JSONErr (List Nat) :=
  match jlookup b "sid" with
  | some v => unmarshalByteSlice [] v
  | none => .ok []

/-- `BuildAdjacencySID`: build the TLV object from a JSON field map.  Every
error path in Go is `return nil, err`; the result pair mirrors the two Go
return values `(*AdjacencySIDTLV, error)`. -/
def BuildAdjacencySID (protoID : ProtoID) (b : List (String × JSON)) :
    Option AdjacencySIDTLV × Option JSONErr :=
  match buildFlagsStep protoID b with
  | .error e => (none, some e)
  | .ok flagsVal =>
    match buildWeightStep b with
    | .error e => (none, some e)
    | .ok w =>
      match buildSIDStep b with
      | .error e => (none, some e)
      | .ok s => (some { Flags := flagsVal, Weight := w, SID := s }, none)

/-- `adjISISFlags.MarshalJSON`: the ISIS flags serialize under their six
keys `f_flag` .. `p_flag`. -/
def adjISISFlags.MarshalJSON (f : adjISISFlags) : JSON :=
  .obj
    [("f_flag", .bool f.F), ("b_flag", .bool f.B), ("v_flag", .bool f.V),
     ("l_flag", .bool f.L), ("s_flag", .bool f.S), ("p_flag", .bool f.P)]

/-- `adjOSPFv2Flags.MarshalJSON`: the OSPFv2 flags serialize with the `G`
field under key `"s_flag"`, exactly as the struct tag `json:"s_flag"` on
`G` in the source dictates. -/
def adjOSPFv2Flags.MarshalJSON (f : adjOSPFv2Flags) : JSON :=
  .obj
    [("b_flag", .bool f.B), ("v_flag", .bool f.V), ("l_flag", .bool f.L),
     ("s_flag", .bool f.G), ("p_flag", .bool f.P)]

/-- `adjOSPFv3Flags.MarshalJSON`: identical to OSPFv2, `G` again under key
`"s_flag"`. -/
def adjOSPFv3Flags.MarshalJSON (f : adjOSPFv3Flags) : JSON :=
  .obj
    [("b_flag", .bool f.B), ("v_flag", .bool f.V), ("l_flag", .bool f.L),
     ("s_flag", .bool f.G), ("p_flag", .bool f.P)]

/-- Dispatch of the `AdjacencySIDFlags` interface method `MarshalJSON` over
the three concrete flag types. -/
def AdjacencySIDFlags.MarshalJSON : AdjacencySIDFlags → JSON
  | .isis f => f.MarshalJSON
  | .ospfv2 f => f.MarshalJSON
  | .ospfv3 f => f.MarshalJSON

/-- C1 (code bug evidence): for the flags octet 0x80 under the OSPFv2 and
OSPFv3 tags, `UnmarshalAdjacencySIDTLV` returns an ISIS-shaped flags record
decoded with the ISIS bit layout (F bit 7, B bit 6, ..., P bit 2 - there is
no G bit at all), so the OSPF-named B (claimed to sit at bit 7) comes out
false; the repository's own `UnmarshalAdjacencySIDOSPFv2Flags`, which is
never called by the TLV decoder, decodes the very same octet to the claimed
OSPF layout with B = true. -/
theorem ospf_branch_uses_isis_bit_layout :
    UnmarshalAdjacencySIDTLV .OSPFv2 [0x80, 0, 0, 0] =
      .ok { Flags := some (.isis
              { F := true, B := false, V := false, L := false,
                S := false, P := false }),
            Weight := 0, SID := [] } ∧
    UnmarshalAdjacencySIDTLV .OSPFv3 [0x80, 0, 0, 0] =
      .ok { Flags := some (.isis
              { F := true, B := false, V := false, L := false,
                S := false, P := false }),
            Weight := 0, SID := [] } ∧
    UnmarshalAdjacencySIDOSPFv2Flags 0x80 =
      .ospfv2 { B := true, V := false, L := false, G := false, P := false } ∧
    UnmarshalAdjacencySIDOSPFv3Flags 0x80 =
      .ospfv3 { B := true, V := false, L := false, G := false, P := false } := by
  refine ⟨rfl, rfl, rfl, rfl⟩

/-- C2 (code bug evidence): on a 3-byte input the decoder does not return a
truncated-input error under any of the four recognized tags - it reaches
`make([]byte, len(b)-4)` with a negative length and panics; on an empty
input it already panics indexing `b[0]`.  The error model of the code
contains no truncated-input error value at all. -/
theorem short_input_panics_not_truncated_error :
    UnmarshalAdjacencySIDTLV .ISISL1 [0, 0, 0] =
      .error (.makesliceLenOutOfRange (-1)) ∧
    UnmarshalAdjacencySIDTLV .ISISL2 [0, 0, 0] =
      .error (.makesliceLenOutOfRange (-1)) ∧
    UnmarshalAdjacencySIDTLV .OSPFv2 [0, 0, 0] =
      .error (.makesliceLenOutOfRange (-1)) ∧
    UnmarshalAdjacencySIDTLV .OSPFv3 [0, 0, 0] =
      .error (.makesliceLenOutOfRange (-1)) ∧
    UnmarshalAdjacencySIDTLV .ISISL1 [] =
      .error (.indexOutOfRange 0 0) := by
  refine ⟨rfl, rfl, rfl, rfl, rfl⟩

/-- C4 (code bug evidence): building OSPFv2 flags from `{"g_flag": true}`
sets G, but `MarshalJSON` emits the G bit under key `"s_flag"`; re-building
from the marshalled object finds no `"g_flag"` key, defaults G to false,
and yields a flags value different from the original - the JSON round trip
is not the identity. -/
theorem ospfv2_flags_json_roundtrip_fails :
    buildAdjOSPFv2Flags [("g_flag", .bool true)] =
      .ok { B := false, V := false, L := false, G := true, P := false } ∧
    adjOSPFv2Flags.MarshalJSON
        { B := false, V := false, L := false, G := true, P := false } =
      .obj [("b_flag", .bool false), ("v_flag", .bool false),
            ("l_flag", .bool false), ("s_flag", .bool true),
            ("p_flag", .bool false)] ∧
    buildAdjOSPFv2Flags
        [("b_flag", .bool false), ("v_flag", .bool false),
         ("l_flag", .bool false), ("s_flag", .bool true),
         ("p_flag", .bool false)] =
      .ok { B := false, V := false, L := false, G := false, P := false } ∧
    ({ B := false, V := false, L := false, G := false, P := false } :
        adjOSPFv2Flags) ≠
      { B := false, V := false, L := false, G := true, P := false } := by
  refine ⟨rfl, rfl, rfl, by decide⟩

/-- C5 (code bug evidence): the OSPFv2 and OSPFv3 `MarshalJSON` emit the G
bit under the ISIS key `"s_flag"`; the marshalled object has no `"g_flag"`
key, contradicting the claimed key set. -/
theorem ospf_marshal_emits_s_flag_key :
    adjOSPFv2Flags.MarshalJSON
        { B := true, V := true, L := true, G := true, P := true } =
      .obj [("b_flag", .bool true), ("v_flag", .bool true),
            ("l_flag", .bool true), ("s_flag", .bool true),
            ("p_flag", .bool true)] ∧
    adjOSPFv3Flags.MarshalJSON
        { B := true, V := true, L := true, G := true, P := true } =
      .obj [("b_flag", .bool true), ("v_flag", .bool true),
            ("l_flag", .bool true), ("s_flag", .bool true),
            ("p_flag", .bool true)] ∧
    jlookup [("b_flag", .bool true), ("v_flag", .bool true),
             ("l_flag", .bool true), ("s_flag", .bool true),
             ("p_flag", .bool true)] "g_flag" = none ∧
    jlookup [("b_flag", .bool true), ("v_flag", .bool true),
             ("l_flag", .bool true), ("s_flag", .bool true),
             ("p_flag", .bool true)] "s_flag" = some (.bool true) := by
  refine ⟨rfl, rfl, rfl, rfl⟩

/-- C6 (counterexample): decoding `[0xB4, 0x0A, 0x00, 0x00, 0x01, 0x02,
0x03]` under the ISIS-L2 tag does not produce the claimed flags
{F, not B, not V, L, S, not P} - 0xB4 = 1011 0100 decodes under the
documented layout `F B V L S P . .` to V = true, S = false, P = true. -/
theorem decode_isisl2_0xB4_claimed_value_wrong :
    UnmarshalAdjacencySIDTLV .ISISL2 [0xB4, 0x0A, 0x00, 0x00, 0x01, 0x02, 0x03] ≠
      .ok { Flags := some (.isis
              { F := true, B := false, V := false, L := true,
                S := true, P := false }),
            Weight := 10, SID := [1, 2, 3] } := by
  decide

/-- C6 (amended): decoding `[0xB4, 0x0A, 0x00, 0x00, 0x01, 0x02, 0x03]`
under the ISIS-L2 tag yields flags {F = true, B = false, V = true,
L = true, S = false, P = true}, weight 10 and SID [0x01, 0x02, 0x03]. -/
theorem decode_isisl2_0xB4_concrete :
    UnmarshalAdjacencySIDTLV .ISISL2 [0xB4, 0x0A, 0x00, 0x00, 0x01, 0x02, 0x03] =
      .ok { Flags := some (.isis
              { F := true, B := false, V := true, L := true,
                S := false, P := true }),
            Weight := 10, SID := [1, 2, 3] } := by
  rfl

/-- C7 (counterexample): with `"sid"` given as the JSON array [9,9,9,9],
`BuildAdjacencySID` under the OSPFv2 tag does not succeed: Go's
`json.Unmarshal` decodes a `[]byte` target from a base64 string, so the
array is an `UnmarshalTypeError` and no object is returned. -/
theorem build_ospfv2_sid_array_fails :
    BuildAdjacencySID .OSPFv2
        [("flags", .obj [("b_flag", .bool true), ("p_flag", .bool true)]),
         ("weight", .num 5),
         ("sid", .arr [.num 9, .num 9, .num 9, .num 9])] =
      (none, some (.unmarshalTypeError
        (.arr [.num 9, .num 9, .num 9, .num 9]) "[]uint8")) := by
  rfl

theorem exists_four_cons_of_len {b : List Nat} (h : 4 ≤ b.length) :
    ∃ b0 b1 b2 b3 rest, b = b0 :: b1 :: b2 :: b3 :: rest := by
  rcases b with _ | ⟨b0, _ | ⟨b1, _ | ⟨b2, _ | ⟨b3, rest⟩⟩⟩⟩ <;>
    first
      | exact ⟨b0, b1, b2, b3, rest, rfl⟩
      | simp at h

/-- C3: for every recognized protocol tag and every input of length at
least 4, the decoder succeeds, the SID is exactly the bytes from offset 4
to the end (hence has length `len(b) - 4`, empty at length 4), and the
weight is the byte at offset 1. -/
theorem unmarshalTLV_sid_weight (protoID : ProtoID) (b : List Nat)
    (_hp : protoID = .ISISL1 ∨ protoID = .ISISL2 ∨
          protoID = .OSPFv2 ∨ protoID = .OSPFv3)
    (hlen : 4 ≤ b.length) :
    ∃ t, UnmarshalAdjacencySIDTLV protoID b = .ok t ∧
      t.SID = b.drop 4 ∧ t.SID.length = b.length - 4 ∧
      b.get? 1 = some t.Weight := by
  obtain ⟨b0, b1, b2, b3, rest, rfl⟩ := exists_four_cons_of_len hlen
  refine ⟨_, unmarshalTLV_cons protoID b0 b1 b2 b3 rest, rfl, ?_, rfl⟩
  simp

/-- C3 witness at the ISIS-L1 tag and a 7-byte input. -/
theorem unmarshalTLV_sid_weight_witness :
    ∃ t, UnmarshalAdjacencySIDTLV .ISISL1 [180, 10, 0, 0, 1, 2, 3] = .ok t ∧
      t.SID = [180, 10, 0, 0, 1, 2, 3].drop 4 ∧
      t.SID.length = [180, 10, 0, 0, 1, 2, 3].length - 4 ∧
      [180, 10, 0, 0, 1, 2, 3].get? 1 = some t.Weight :=
  unmarshalTLV_sid_weight .ISISL1 [180, 10, 0, 0, 1, 2, 3]
    (Or.inl rfl) (by decide)

/-- C10: with at least 4 input bytes the decoder returns a nil error for
every protocol tag value; under an unrecognized tag the Flags field is left
nil while the weight and the SID are still decoded from their normal
offsets. -/
theorem unmarshalTLV_any_tag_no_error (protoID : ProtoID) (b : List Nat)
    (hlen : 4 ≤ b.length) :
    ∃ t, UnmarshalAdjacencySIDTLV protoID b = .ok t ∧
      (∀ n, protoID = .Other n → t.Flags = none) ∧
      b.get? 1 = some t.Weight ∧ t.SID = b.drop 4 := by
  obtain ⟨b0, b1, b2, b3, rest, rfl⟩ := exists_four_cons_of_len hlen
  refine ⟨_, unmarshalTLV_cons protoID b0 b1 b2 b3 rest, ?_, rfl, rfl⟩
  intro n hn
  subst hn
  rfl

/-- C10 witness at an unrecognized tag. -/
theorem unmarshalTLV_any_tag_no_error_witness :
    ∃ t, UnmarshalAdjacencySIDTLV (.Other 42) [9, 8, 7, 6, 5] = .ok t ∧
      (∀ n, (ProtoID.Other 42 : ProtoID) = .Other n → t.Flags = none) ∧
      [9, 8, 7, 6, 5].get? 1 = some t.Weight ∧
      t.SID = [9, 8, 7, 6, 5].drop 4 :=
  unmarshalTLV_any_tag_no_error (.Other 42) [9, 8, 7, 6, 5] (by decide)

/-- Modelled from the spec: re-derive a flags octet from a Flags variant by
placing each named boolean back at the bit position documented in the
source's bit-layout comments (`F B V L S P . .` for the ISIS record,
`B V L G P . . .` for the OSPFv2/v3 records). -/
def reEncodeFlags : AdjacencySIDFlags → Nat
  | .isis f =>
    (if f.F then 0x80 else 0) ||| (if f.B then 0x40 else 0) |||
    (if f.V then 0x20 else 0) ||| (if f.L then 0x10 else 0) |||
    (if f.S then 0x8 else 0) ||| (if f.P then 0x4 else 0)
  | .ospfv2 f =>
    (if f.B then 0x80 else 0) ||| (if f.V then 0x40 else 0) |||
    (if f.L then 0x20 else 0) ||| (if f.G then 0x10 else 0) |||
    (if f.P then 0x8 else 0)
  | .ospfv3 f =>
    (if f.B then 0x80 else 0) ||| (if f.V then 0x40 else 0) |||
    (if f.L then 0x20 else 0) ||| (if f.G then 0x10 else 0) |||
    (if f.P then 0x8 else 0)

/-- The octet bits a Flags variant models: the complement of its reserved
low bits (bits 1-0 for the ISIS record, bits 2-0 for OSPFv2/v3). -/
def modeledBitsMask : AdjacencySIDFlags → Nat
  | .isis _ => 0xFC
  | .ospfv2 _ => 0xF8
  | .ospfv3 _ => 0xF8

set_option maxRecDepth 4096 in
theorem reEncode_isis_flags (b0 : Nat) (h : b0 < 256) :
    reEncodeFlags (UnmarshalAdjacencySIDISISFlags b0) = b0 &&& 0xFC := by
  revert h
  revert b0
  decide

set_option maxRecDepth 4096 in
theorem reEncode_ospf_flags (b0 : Nat) (h : b0 < 256) :
    reEncodeFlags (UnmarshalAdjacencySIDOSPFFlags b0) = b0 &&& 0xFC := by
  revert h
  revert b0
  decide

/-- C9: for every recognized protocol tag and every byte slice of length at
least 4, decoding and then re-deriving an octet from the resulting Flags
variant's booleans (each named bit back at its documented position)
reproduces the original flags octet on all bits the variant models, the
reserved low bits excluded.  Under the OSPF tags the resulting variant is
the ISIS-shaped record (see C1), so the modeled bits are bits 7-2 for all
four tags. -/
theorem flags_octet_roundtrip (protoID : ProtoID) (b : List Nat)
    (hp : protoID = .ISISL1 ∨ protoID = .ISISL2 ∨
          protoID = .OSPFv2 ∨ protoID = .OSPFv3)
    (hlen : 4 ≤ b.length) (hbytes : ∀ x ∈ b, x < 256) :
    ∃ t fl, UnmarshalAdjacencySIDTLV protoID b = .ok t ∧
      t.Flags = some fl ∧
      reEncodeFlags fl = b.headI &&& modeledBitsMask fl := by
  obtain ⟨b0, b1, b2, b3, rest, rfl⟩ := exists_four_cons_of_len hlen
  have hb0 : b0 < 256 := hbytes b0 (by simp)
  rcases hp with rfl | rfl | rfl | rfl
  · exact ⟨_, _, unmarshalTLV_cons _ b0 b1 b2 b3 rest, rfl,
      reEncode_isis_flags b0 hb0⟩
  · exact ⟨_, _, unmarshalTLV_cons _ b0 b1 b2 b3 rest, rfl,
      reEncode_isis_flags b0 hb0⟩
  · exact ⟨_, _, unmarshalTLV_cons _ b0 b1 b2 b3 rest, rfl,
      reEncode_ospf_flags b0 hb0⟩
  · exact ⟨_, _, unmarshalTLV_cons _ b0 b1 b2 b3 rest, rfl,
      reEncode_ospf_flags b0 hb0⟩

/-- C9 witness at the OSPFv2 tag and flags octet 0xB7. -/
theorem flags_octet_roundtrip_witness :
    ∃ t fl, UnmarshalAdjacencySIDTLV .OSPFv2 [183, 1, 2, 3] = .ok t ∧
      t.Flags = some fl ∧
      reEncodeFlags fl = List.headI [183, 1, 2, 3] &&& modeledBitsMask fl :=
  flags_octet_roundtrip .OSPFv2 [183, 1, 2, 3] (by decide) (by decide)
    (by decide)

theorem except_error_or_ok {ε α : Type} (x : Except ε α) :
    (∃ e, x = .error e) ∨ (∃ a, x = .ok a) := by
  cases x
  · exact Or.inl ⟨_, rfl⟩
  · exact Or.inr ⟨_, rfl⟩

theorem goUnmarshalFlagField_absent {fo : List (String × JSON)} {k : String}
    {x : Bool} (h : goUnmarshalFlagField fo k = .ok x)
    (hn : jlookup fo k = none) : x = false := by
  unfold goUnmarshalFlagField at h
  rw [hn] at h
  exact (Except.ok.inj h).symm

theorem buildAdjISISFlags_ok_iff (fo : List (String × JSON))
    (f : adjISISFlags) :
    buildAdjISISFlags fo = .ok f ↔
      goUnmarshalFlagField fo "f_flag" = .ok f.F ∧
      goUnmarshalFlagField fo "b_flag" = .ok f.B ∧
      goUnmarshalFlagField fo "v_flag" = .ok f.V ∧
      goUnmarshalFlagField fo "l_flag" = .ok f.L ∧
      goUnmarshalFlagField fo "s_flag" = .ok f.S ∧
      goUnmarshalFlagField fo "p_flag" = .ok f.P := by
  unfold buildAdjISISFlags
  constructor
  · intro h
    repeat' split at h
    all_goals first
      | (injection h with h; subst h; simp_all)
      | simp_all
  · rintro ⟨h1, h2, h3, h4, h5, h6⟩
    rw [h1, h2, h3, h4, h5, h6]

theorem buildAdjOSPFv2Flags_ok_iff (fo : List (String × JSON))
    (f : adjOSPFv2Flags) :
    buildAdjOSPFv2Flags fo = .ok f ↔
      goUnmarshalFlagField fo "b_flag" = .ok f.B ∧
      goUnmarshalFlagField fo "v_flag" = .ok f.V ∧
      goUnmarshalFlagField fo "l_flag" = .ok f.L ∧
      goUnmarshalFlagField fo "g_flag" = .ok f.G ∧
      goUnmarshalFlagField fo "p_flag" = .ok f.P := by
  unfold buildAdjOSPFv2Flags
  constructor
  · intro h
    repeat' split at h
    all_goals first
      | (injection h with h; subst h; simp_all)
      | simp_all
  · rintro ⟨h1, h2, h3, h4, h5⟩
    rw [h1, h2, h3, h4, h5]

theorem buildAdjOSPFv3Flags_ok_iff (fo : List (String × JSON))
    (f : adjOSPFv3Flags) :
    buildAdjOSPFv3Flags fo = .ok f ↔
      goUnmarshalFlagField fo "b_flag" = .ok f.B ∧
      goUnmarshalFlagField fo "v_flag" = .ok f.V ∧
      goUnmarshalFlagField fo "l_flag" = .ok f.L ∧
      goUnmarshalFlagField fo "g_flag" = .ok f.G ∧
      goUnmarshalFlagField fo "p_flag" = .ok f.P := by
  unfold buildAdjOSPFv3Flags
  constructor
  · intro h
    repeat' split at h
    all_goals first
      | (injection h with h; subst h; simp_all)
      | simp_all
  · rintro ⟨h1, h2, h3, h4, h5⟩
    rw [h1, h2, h3, h4, h5]

/-- C7 (amended): the concrete OSPFv2 build scenario succeeds once `sid` is
given in the form Go's `encoding/json` actually accepts for a `[]byte`
field - the base64 string "CQkJCQ==", which decodes to [9, 9, 9, 9] - and
yields B = true, P = true, the other flags false, weight 5; and, for every
variant builder, flag keys absent from the flags object default to false
and are never an error (building from the empty object succeeds with all
flags false). -/
theorem build_ospfv2_concrete_and_flag_defaulting :
    (BuildAdjacencySID .OSPFv2
        [("flags", .obj [("b_flag", .bool true), ("p_flag", .bool true)]),
         ("weight", .num 5), ("sid", .str "CQkJCQ==")] =
      (some { Flags := some (.ospfv2
                { B := true, V := false, L := false, G := false, P := true }),
              Weight := 5, SID := [9, 9, 9, 9] }, none)) ∧
    (∀ fo f, buildAdjISISFlags fo = .ok f →
      (jlookup fo "f_flag" = none → f.F = false) ∧
      (jlookup fo "b_flag" = none → f.B = false) ∧
      (jlookup fo "v_flag" = none → f.V = false) ∧
      (jlookup fo "l_flag" = none → f.L = false) ∧
      (jlookup fo "s_flag" = none → f.S = false) ∧
      (jlookup fo "p_flag" = none → f.P = false)) ∧
    (∀ fo f, buildAdjOSPFv2Flags fo = .ok f →
      (jlookup fo "b_flag" = none → f.B = false) ∧
      (jlookup fo "v_flag" = none → f.V = false) ∧
      (jlookup fo "l_flag" = none → f.L = false) ∧
      (jlookup fo "g_flag" = none → f.G = false) ∧
      (jlookup fo "p_flag" = none → f.P = false)) ∧
    (∀ fo f, buildAdjOSPFv3Flags fo = .ok f →
      (jlookup fo "b_flag" = none → f.B = false) ∧
      (jlookup fo "v_flag" = none → f.V = false) ∧
      (jlookup fo "l_flag" = none → f.L = false) ∧
      (jlookup fo "g_flag" = none → f.G = false) ∧
      (jlookup fo "p_flag" = none → f.P = false)) ∧
    buildAdjISISFlags [] =
      .ok { F := false, B := false, V := false, L := false,
            S := false, P := false } ∧
    buildAdjOSPFv2Flags [] =
      .ok { B := false, V := false, L := false, G := false, P := false } ∧
    buildAdjOSPFv3Flags [] =
      .ok { B := false, V := false, L := false, G := false, P := false } := by
  refine ⟨rfl, ?_, ?_, ?_, rfl, rfl, rfl⟩
  · intro fo f h
    rw [buildAdjISISFlags_ok_iff] at h
    exact ⟨fun hn => goUnmarshalFlagField_absent h.1 hn,
      fun hn => goUnmarshalFlagField_absent h.2.1 hn,
      fun hn => goUnmarshalFlagField_absent h.2.2.1 hn,
      fun hn => goUnmarshalFlagField_absent h.2.2.2.1 hn,
      fun hn => goUnmarshalFlagField_absent h.2.2.2.2.1 hn,
      fun hn => goUnmarshalFlagField_absent h.2.2.2.2.2 hn⟩
  · intro fo f h
    rw [buildAdjOSPFv2Flags_ok_iff] at h
    exact ⟨fun hn => goUnmarshalFlagField_absent h.1 hn,
      fun hn => goUnmarshalFlagField_absent h.2.1 hn,
      fun hn => goUnmarshalFlagField_absent h.2.2.1 hn,
      fun hn => goUnmarshalFlagField_absent h.2.2.2.1 hn,
      fun hn => goUnmarshalFlagField_absent h.2.2.2.2 hn⟩
  · intro fo f h
    rw [buildAdjOSPFv3Flags_ok_iff] at h
    exact ⟨fun hn => goUnmarshalFlagField_absent h.1 hn,
      fun hn => goUnmarshalFlagField_absent h.2.1 hn,
      fun hn => goUnmarshalFlagField_absent h.2.2.1 hn,
      fun hn => goUnmarshalFlagField_absent h.2.2.2.1 hn,
      fun hn => goUnmarshalFlagField_absent h.2.2.2.2 hn⟩

/-- C7 witness: an instance of the defaulting clause - the OSPFv2 builder
on a map carrying only `b_flag` and `p_flag` leaves G false. -/
theorem build_ospfv2_concrete_and_flag_defaulting_witness :
    buildAdjOSPFv2Flags [("b_flag", JSON.bool true), ("p_flag", JSON.bool true)] =
      .ok { B := true, V := false, L := false, G := false, P := true } ∧
    ({ B := true, V := false, L := false, G := false, P := true } :
        adjOSPFv2Flags).G = false :=
  ⟨rfl,
    (build_ospfv2_concrete_and_flag_defaulting.2.2.1
        [("b_flag", JSON.bool true), ("p_flag", JSON.bool true)]
        { B := true, V := false, L := false, G := false, P := true }
        rfl).2.2.2.1 rfl⟩

theorem goUnmarshalFlagField_error_iff (fo : List (String × JSON))
    (k : String) :
    (∃ e, goUnmarshalFlagField fo k = .error e) ↔
      ∃ w, jlookup fo k = some w ∧ ∃ e, unmarshalBool false w = .error e := by
  unfold goUnmarshalFlagField
  cases h : jlookup fo k <;> simp [h]

theorem buildAdjISISFlags_error_iff (fo : List (String × JSON)) :
    (∃ e, buildAdjISISFlags fo = .error e) ↔
      ∃ k, k ∈ (["f_flag", "b_flag", "v_flag", "l_flag", "s_flag",
                 "p_flag"] : List String) ∧
        ∃ w, jlookup fo k = some w ∧
          ∃ e, unmarshalBool false w = .error e := by
  constructor
  · rintro ⟨e, he⟩
    unfold buildAdjISISFlags at he
    rcases except_error_or_ok (goUnmarshalFlagField fo "f_flag") with h | ⟨x1, h1⟩
    · exact ⟨"f_flag", by simp, (goUnmarshalFlagField_error_iff fo "f_flag").mp h⟩
    rw [h1] at he
    rcases except_error_or_ok (goUnmarshalFlagField fo "b_flag") with h | ⟨x2, h2⟩
    · exact ⟨"b_flag", by simp, (goUnmarshalFlagField_error_iff fo "b_flag").mp h⟩
    rw [h2] at he
    rcases except_error_or_ok (goUnmarshalFlagField fo "v_flag") with h | ⟨x3, h3⟩
    · exact ⟨"v_flag", by simp, (goUnmarshalFlagField_error_iff fo "v_flag").mp h⟩
    rw [h3] at he
    rcases except_error_or_ok (goUnmarshalFlagField fo "l_flag") with h | ⟨x4, h4⟩
    · exact ⟨"l_flag", by simp, (goUnmarshalFlagField_error_iff fo "l_flag").mp h⟩
    rw [h4] at he
    rcases except_error_or_ok (goUnmarshalFlagField fo "s_flag") with h | ⟨x5, h5⟩
    · exact ⟨"s_flag", by simp, (goUnmarshalFlagField_error_iff fo "s_flag").mp h⟩
    rw [h5] at he
    rcases except_error_or_ok (goUnmarshalFlagField fo "p_flag") with h | ⟨x6, h6⟩
    · exact ⟨"p_flag", by simp, (goUnmarshalFlagField_error_iff fo "p_flag").mp h⟩
    rw [h6] at he
    cases he
  · rintro ⟨k, hk, hpay⟩
    have hkerr : ∃ e, goUnmarshalFlagField fo k = .error e :=
      (goUnmarshalFlagField_error_iff fo k).mpr hpay
    rcases except_error_or_ok (buildAdjISISFlags fo) with h | ⟨f, hf⟩
    · exact h
    exfalso
    rw [buildAdjISISFlags_ok_iff] at hf
    obtain ⟨e, he⟩ := hkerr
    simp only [List.mem_cons, List.not_mem_nil, or_false] at hk
    rcases hk with rfl | rfl | rfl | rfl | rfl | rfl
    · rw [hf.1] at he; cases he
    · rw [hf.2.1] at he; cases he
    · rw [hf.2.2.1] at he; cases he
    · rw [hf.2.2.2.1] at he; cases he
    · rw [hf.2.2.2.2.1] at he; cases he
    · rw [hf.2.2.2.2.2] at he; cases he

theorem buildAdjOSPFv2Flags_error_iff (fo : List (String × JSON)) :
    (∃ e, buildAdjOSPFv2Flags fo = .error e) ↔
      ∃ k, k ∈ (["b_flag", "v_flag", "l_flag", "g_flag",
                 "p_flag"] : List String) ∧
        ∃ w, jlookup fo k = some w ∧
          ∃ e, unmarshalBool false w = .error e := by
  constructor
  · rintro ⟨e, he⟩
    unfold buildAdjOSPFv2Flags at he
    rcases except_error_or_ok (goUnmarshalFlagField fo "b_flag") with h | ⟨x1, h1⟩
    · exact ⟨"b_flag", by simp, (goUnmarshalFlagField_error_iff fo "b_flag").mp h⟩
    rw [h1] at he
    rcases except_error_or_ok (goUnmarshalFlagField fo "v_flag") with h | ⟨x2, h2⟩
    · exact ⟨"v_flag", by simp, (goUnmarshalFlagField_error_iff fo "v_flag").mp h⟩
    rw [h2] at he
    rcases except_error_or_ok (goUnmarshalFlagField fo "l_flag") with h | ⟨x3, h3⟩
    · exact ⟨"l_flag", by simp, (goUnmarshalFlagField_error_iff fo "l_flag").mp h⟩
    rw [h3] at he
    rcases except_error_or_ok (goUnmarshalFlagField fo "g_flag") with h | ⟨x4, h4⟩
    · exact ⟨"g_flag", by simp, (goUnmarshalFlagField_error_iff fo "g_flag").mp h⟩
    rw [h4] at he
    rcases except_error_or_ok (goUnmarshalFlagField fo "p_flag") with h | ⟨x5, h5⟩
    · exact ⟨"p_flag", by simp, (goUnmarshalFlagField_error_iff fo "p_flag").mp h⟩
    rw [h5] at he
    cases he
  · rintro ⟨k, hk, hpay⟩
    have hkerr : ∃ e, goUnmarshalFlagField fo k = .error e :=
      (goUnmarshalFlagField_error_iff fo k).mpr hpay
    rcases except_error_or_ok (buildAdjOSPFv2Flags fo) with h | ⟨f, hf⟩
    · exact h
    exfalso
    rw [buildAdjOSPFv2Flags_ok_iff] at hf
    obtain ⟨e, he⟩ := hkerr
    simp only [List.mem_cons, List.not_mem_nil, or_false] at hk
    rcases hk with rfl | rfl | rfl | rfl | rfl
    · rw [hf.1] at he; cases he
    · rw [hf.2.1] at he; cases he
    · rw [hf.2.2.1] at he; cases he
    · rw [hf.2.2.2.1] at he; cases he
    · rw [hf.2.2.2.2] at he; cases he

theorem buildAdjOSPFv3Flags_error_iff (fo : List (String × JSON)) :
    (∃ e, buildAdjOSPFv3Flags fo = .error e) ↔
      ∃ k, k ∈ (["b_flag", "v_flag", "l_flag", "g_flag",
                 "p_flag"] : List String) ∧
        ∃ w, jlookup fo k = some w ∧
          ∃ e, unmarshalBool false w = .error e := by
  constructor
  · rintro ⟨e, he⟩
    unfold buildAdjOSPFv3Flags at he
    rcases except_error_or_ok (goUnmarshalFlagField fo "b_flag") with h | ⟨x1, h1⟩
    · exact ⟨"b_flag", by simp, (goUnmarshalFlagField_error_iff fo "b_flag").mp h⟩
    rw [h1] at he
    rcases except_error_or_ok (goUnmarshalFlagField fo "v_flag") with h | ⟨x2, h2⟩
    · exact ⟨"v_flag", by simp, (goUnmarshalFlagField_error_iff fo "v_flag").mp h⟩
    rw [h2] at he
    rcases except_error_or_ok (goUnmarshalFlagField fo "l_flag") with h | ⟨x3, h3⟩
    · exact ⟨"l_flag", by simp, (goUnmarshalFlagField_error_iff fo "l_flag").mp h⟩
    rw [h3] at he
    rcases except_error_or_ok (goUnmarshalFlagField fo "g_flag") with h | ⟨x4, h4⟩
    · exact ⟨"g_flag", by simp, (goUnmarshalFlagField_error_iff fo "g_flag").mp h⟩
    rw [h4] at he
    rcases except_error_or_ok (goUnmarshalFlagField fo "p_flag") with h | ⟨x5, h5⟩
    · exact ⟨"p_flag", by simp, (goUnmarshalFlagField_error_iff fo "p_flag").mp h⟩
    rw [h5] at he
    cases he
  · rintro ⟨k, hk, hpay⟩
    have hkerr : ∃ e, goUnmarshalFlagField fo k = .error e :=
      (goUnmarshalFlagField_error_iff fo k).mpr hpay
    rcases except_error_or_ok (buildAdjOSPFv3Flags fo) with h | ⟨f, hf⟩
    · exact h
    exfalso
    rw [buildAdjOSPFv3Flags_ok_iff] at hf
    obtain ⟨e, he⟩ := hkerr
    simp only [List.mem_cons, List.not_mem_nil, or_false] at hk
    rcases hk with rfl | rfl | rfl | rfl | rfl
    · rw [hf.1] at he; cases he
    · rw [hf.2.1] at he; cases he
    · rw [hf.2.2.1] at he; cases he
    · rw [hf.2.2.2.1] at he; cases he
    · rw [hf.2.2.2.2] at he; cases he

/-- The JSON flag keys the variant builder selected for a protocol tag
reads; empty for an unrecognized tag (no builder runs). -/
def flagKeysFor : ProtoID → List String
  | .ISISL1 => ["f_flag", "b_flag", "v_flag", "l_flag", "s_flag", "p_flag"]
  | .ISISL2 => ["f_flag", "b_flag", "v_flag", "l_flag", "s_flag", "p_flag"]
  | .OSPFv2 => ["b_flag", "v_flag", "l_flag", "g_flag", "p_flag"]
  | .OSPFv3 => ["b_flag", "v_flag", "l_flag", "g_flag", "p_flag"]
  | .Other _ => []

theorem buildFlagsStep_error_iff (protoID : ProtoID)
    (m : List (String × JSON)) :
    (∃ e, buildFlagsStep protoID m = .error e) ↔
      ∃ v, jlookup m "flags" = some v ∧
        ((∃ e, unmarshalObj [] v = .error e) ∨
         (∃ fo, unmarshalObj [] v = .ok fo ∧
           ∃ k, k ∈ flagKeysFor protoID ∧
             ∃ w, jlookup fo k = some w ∧
               ∃ e, unmarshalBool false w = .error e)) := by
  constructor
  · rintro ⟨e, he⟩
    unfold buildFlagsStep at he
    cases hv : jlookup m "flags"
    · simp [hv] at he
    case some v =>
      cases ho : unmarshalObj [] v
      case error e0 =>
        exact ⟨v, rfl, Or.inl ⟨e0, ho⟩⟩
      case ok fo =>
        cases protoID
        case ISISL1 =>
          cases hb : buildAdjISISFlags fo
          case error e1 =>
            exact ⟨v, rfl, Or.inr ⟨fo, ho,
              (buildAdjISISFlags_error_iff fo).mp ⟨e1, hb⟩⟩⟩
          case ok f => simp [hv, ho, hb] at he
        case ISISL2 =>
          cases hb : buildAdjISISFlags fo
          case error e1 =>
            exact ⟨v, rfl, Or.inr ⟨fo, ho,
              (buildAdjISISFlags_error_iff fo).mp ⟨e1, hb⟩⟩⟩
          case ok f => simp [hv, ho, hb] at he
        case OSPFv2 =>
          cases hb : buildAdjOSPFv2Flags fo
          case error e1 =>
            exact ⟨v, rfl, Or.inr ⟨fo, ho,
              (buildAdjOSPFv2Flags_error_iff fo).mp ⟨e1, hb⟩⟩⟩
          case ok f => simp [hv, ho, hb] at he
        case OSPFv3 =>
          cases hb : buildAdjOSPFv3Flags fo
          case error e1 =>
            exact ⟨v, rfl, Or.inr ⟨fo, ho,
              (buildAdjOSPFv3Flags_error_iff fo).mp ⟨e1, hb⟩⟩⟩
          case ok f => simp [hv, ho, hb] at he
        case Other n => simp [hv, ho] at he
  · rintro ⟨v, hv, hrest⟩
    unfold buildFlagsStep
    rcases hrest with ⟨e0, ho⟩ | ⟨fo, ho, hkeys⟩
    · refine ⟨e0, ?_⟩
      simp [hv, ho]
    · cases protoID
      case ISISL1 =>
        obtain ⟨e1, hb⟩ := (buildAdjISISFlags_error_iff fo).mpr hkeys
        refine ⟨e1, ?_⟩
        simp [hv, ho, hb]
      case ISISL2 =>
        obtain ⟨e1, hb⟩ := (buildAdjISISFlags_error_iff fo).mpr hkeys
        refine ⟨e1, ?_⟩
        simp [hv, ho, hb]
      case OSPFv2 =>
        obtain ⟨e1, hb⟩ := (buildAdjOSPFv2Flags_error_iff fo).mpr hkeys
        refine ⟨e1, ?_⟩
        simp [hv, ho, hb]
      case OSPFv3 =>
        obtain ⟨e1, hb⟩ := (buildAdjOSPFv3Flags_error_iff fo).mpr hkeys
        refine ⟨e1, ?_⟩
        simp [hv, ho, hb]
      case Other n =>
        simp [flagKeysFor] at hkeys

theorem buildWeightStep_error_iff (m : List (String × JSON)) :
    (∃ e, buildWeightStep m = .error e) ↔
      ∃ v, jlookup m "weight" = some v ∧
        ∃ e, unmarshalUint8 0 v = .error e := by
  unfold buildWeightStep
  cases h : jlookup m "weight" <;> simp [h]

theorem buildSIDStep_error_iff (m : List (String × JSON)) :
    (∃ e, buildSIDStep m = .error e) ↔
      ∃ v, jlookup m "sid" = some v ∧
        ∃ e, unmarshalByteSlice [] v = .error e := by
  unfold buildSIDStep
  cases h : jlookup m "sid" <;> simp [h]

/-- C8: `BuildAdjacencySID` fails exactly when some present top-level key's
value cannot be parsed as its declared shape - `flags` not an object, a
present flag key of the selected variant whose value is not a boolean,
`weight` not an integral number in 0..255, or `sid` not a well-formed
byte-slice value - and in every failure the object returned alongside the
error is nil.  (Absent keys never cause an error: each disjunct requires
the key to be present.) -/
theorem build_error_iff_present_key_unparseable (protoID : ProtoID)
    (m : List (String × JSON)) :
    ((BuildAdjacencySID protoID m).2.isSome = true ↔
      (∃ v, jlookup m "flags" = some v ∧
        ((∃ e, unmarshalObj [] v = .error e) ∨
         (∃ fo, unmarshalObj [] v = .ok fo ∧
           ∃ k, k ∈ flagKeysFor protoID ∧
             ∃ w, jlookup fo k = some w ∧
               ∃ e, unmarshalBool false w = .error e))) ∨
      (∃ v, jlookup m "weight" = some v ∧
        ∃ e, unmarshalUint8 0 v = .error e) ∨
      (∃ v, jlookup m "sid" = some v ∧
        ∃ e, unmarshalByteSlice [] v = .error e)) ∧
    ((BuildAdjacencySID protoID m).2.isSome = true →
      (BuildAdjacencySID protoID m).1 = none) := by
  have hf := buildFlagsStep_error_iff protoID m
  have hw := buildWeightStep_error_iff m
  have hs := buildSIDStep_error_iff m
  rw [← hf, ← hw, ← hs]
  unfold BuildAdjacencySID
  constructor
  · cases h1 : buildFlagsStep protoID m <;>
      cases h2 : buildWeightStep m <;>
        cases h3 : buildSIDStep m <;> simp
  · cases h1 : buildFlagsStep protoID m <;>
      cases h2 : buildWeightStep m <;>
        cases h3 : buildSIDStep m <;> simp

/-- C8 witness: a present `weight` key with a non-numeric value makes the
build fail, and the object returned alongside the error is nil. -/
theorem build_error_iff_present_key_unparseable_witness :
    (BuildAdjacencySID .OSPFv2 [("weight", JSON.str "not-a-number")]).1 =
      none :=
  (build_error_iff_present_key_unparseable .OSPFv2
    [("weight", JSON.str "not-a-number")]).2 rfl
